import Mathlib

/-!
Shallow embedding of the waypoint-updater and yaw-controller sources of the
CarND-Capstone repository (files `waypoint_updater.py` and `yaw_controller.py`),
together with theorems settling the specification claims about them.

Python floats are embedded as real numbers; every Python float division that can
raise `ZeroDivisionError` is modelled through an `Option`-valued division, and
Python computations that would raise (e.g. indexing with `None`) are modelled as
`Option`-valued results.
-/

/-- A waypoint position (the `pose.pose.position` of a waypoint message). -/
structure Position where
  x : ℝ
  y : ℝ
  z : ℝ

/-- The arc-length element of `WaypointUpdater.distance`:
`dl = lambda a, b: math.sqrt((a.x-b.x)**2 + (a.y-b.y)**2 + (a.z-b.z)**2)`. -/
noncomputable def dl (a b : Position) : ℝ :=
  Real.sqrt ((a.x - b.x) ^ 2 + (a.y - b.y) ^ 2 + (a.z - b.z) ^ 2)

/-- Python list indexing `self.waypoints[i]`: a negative index counts from the
end.  An index out of range raises in Python; it is modelled by the origin and
is never reached in the verified scenarios. -/
noncomputable def wpAt (wps : List Position) (i : ℤ) : Position :=
  if i < 0 then wps.getD (i + wps.length).toNat ⟨0, 0, 0⟩
  else wps.getD i.toNat ⟨0, 0, 0⟩

/-- Python `range(a, b)` over integers. -/
def intRange (a b : ℤ) : List ℤ :=
  (List.range (b - a).toNat).map (fun k => a + k)

/-- `WaypointUpdater.distance(wp1, wp2)`: arc-length accumulation.  The loop
body both adds `dl(waypoints[wp1], waypoints[i])` and then mutates `wp1 = i`,
which the fold state `(dist, wp1)` captures. -/
noncomputable def distance (wps : List Position) (wp1 wp2 : ℤ) : ℝ :=
  ((intRange wp1 (wp2 + 1)).foldl
    (fun p i => (p.1 + dl (wpAt wps p.2) (wpAt wps i), i)) ((0 : ℝ), wp1)).1

/-- The `BreakingTrajectory` class (sic, the source's spelling). -/
structure BreakingTrajectory where
  alpha : ℝ
  acceleration : ℝ
  start_velocity : ℝ
  distance_to_tl : ℝ

/-- `BreakingTrajectory.__init__(start_velocity, distance_to_tl, alpha)`:
`acceleration = -0.5 * start_velocity**2 / max(0.1, distance_to_tl) * alpha`.
The Python default argument is `alpha = 1.25`; call sites pass `1.25`
explicitly here. -/
noncomputable def BreakingTrajectory.make
    (start_velocity distance_to_tl alpha : ℝ) : BreakingTrajectory where
  alpha := alpha
  acceleration := -0.5 * start_velocity ^ 2 / max 0.1 distance_to_tl * alpha
  start_velocity := start_velocity
  distance_to_tl := distance_to_tl

/-- `BreakingTrajectory.velocity_at_position(x)`. -/
noncomputable def BreakingTrajectory.velocity_at_position
    (t : BreakingTrajectory) (x : ℝ) : ℝ :=
  if x ≥ t.distance_to_tl then 0
  else Real.sqrt (max 0 (x * t.acceleration + t.start_velocity ^ 2))

/-- The planner states of the `STATE` class. -/
inductive STATE where
  | keepVelocity
  | stopAtTl
deriving DecidableEq

/-- The active trajectory held in `self.trajectory`.  The braking arm embeds
the `BreakingTrajectory` class above.  Modelled from the spec: the cruise arm
stands for `Trajectory.VelocityKeepingTrajectory`, whose implementation
(`trajectory.py`) is not among the sources; the spec describes a trajectory
only as a pure map from accumulated distance to speed, so the cruise arm
carries exactly that map. -/
inductive ActiveTrajectory where
  | braking (t : BreakingTrajectory)
  | cruise (velocityAt : ℝ → ℝ)

/-- Dispatch of `self.trajectory.velocity_at_position(dist)`. -/
noncomputable def ActiveTrajectory.velocity_at : ActiveTrajectory → ℝ → ℝ
  | .braking t, x => t.velocity_at_position x
  | .cruise f, x => f x

/-- The mutable fields of `WaypointUpdater` read by the planning logic. -/
structure UpdaterState where
  px : ℝ
  py : ℝ
  yaw : ℝ
  velocity : ℝ
  waypoints : List Position
  target_velocity : ℝ
  state : STATE
  red_tl_waypoint_idx : ℤ
  trajectory_start_idx : ℤ
  trajectory_start_velocity : ℝ
  trajectory : Option ActiveTrajectory
  current_velocity : ℝ
  breaking_trajectory_duration : ℝ

/-- Field initialisation in `WaypointUpdater.__init__`.  Fields the source
initialises to `None` (pose and `velocity`) are modelled as `0`; every verified
scenario overwrites them before they are read. -/
noncomputable def initState (wps : List Position) (velocityParam : ℝ) : UpdaterState where
  px := 0
  py := 0
  yaw := 0
  velocity := 0
  waypoints := wps
  target_velocity := velocityParam / 3.6
  state := .keepVelocity
  red_tl_waypoint_idx := -1
  trajectory_start_idx := -1
  trajectory_start_velocity := 0
  trajectory := none
  current_velocity := 0
  breaking_trajectory_duration := 4

/-- `WaypointUpdater.velocity_cb`: stores the delivered linear speed in
`self.velocity` (and in no other field). -/
noncomputable def velocity_cb (s : UpdaterState) (v : ℝ) : UpdaterState :=
  { s with velocity := v }

/-- `WaypointUpdater.traffic_cb`: stores the red-light waypoint index. -/
noncomputable def traffic_cb (s : UpdaterState) (idx : ℤ) : UpdaterState :=
  { s with red_tl_waypoint_idx := idx }

/-- `WaypointUpdater.is_red_traffic_light_near(current_idx)`. -/
noncomputable def is_red_traffic_light_near (s : UpdaterState) (current_idx : ℕ) : Prop :=
  if s.red_tl_waypoint_idx = -1 then False
  else
    let dist_to_tl := distance s.waypoints current_idx s.red_tl_waypoint_idx
    if (current_idx : ℤ) > s.red_tl_waypoint_idx then dist_to_tl < 2
    else if s.velocity < 0.1 then dist_to_tl < 1
    else dist_to_tl / s.velocity < s.breaking_trajectory_duration

/-- `WaypointUpdater.distance_to_next_traffic_light(current_idx)` (the source's
`assert red_tl_waypoint_idx != -1` holds at every modelled call site). -/
noncomputable def distance_to_next_traffic_light (s : UpdaterState) (current_idx : ℕ) : ℝ :=
  distance s.waypoints current_idx s.red_tl_waypoint_idx

open Classical in
/-- `WaypointUpdater.update_state(current_idx)`. -/
noncomputable def update_state (s : UpdaterState) (current_idx : ℕ) : UpdaterState :=
  if s.state = .keepVelocity ∧ is_red_traffic_light_near s current_idx then
    { s with
      state := .stopAtTl
      trajectory_start_idx := (current_idx : ℤ)
      trajectory := some (.braking (BreakingTrajectory.make s.current_velocity
        (distance_to_next_traffic_light s current_idx) 1.25)) }
  else if s.state = .stopAtTl ∧ ¬ is_red_traffic_light_near s current_idx then
    { s with state := .keepVelocity, trajectory := none }
  else s

open Classical in
/-- `WaypointUpdater.calc_waypoint_velocity(idx)`.  A `None` trajectory in the
final branch would raise in Python; it is modelled as `none`. -/
noncomputable def calc_waypoint_velocity (s : UpdaterState) (idx : ℕ) : Option ℝ :=
  if s.state = .keepVelocity then some s.target_velocity
  else if (idx : ℤ) ≥ s.red_tl_waypoint_idx then some 0
  else s.trajectory.map
    (fun t => t.velocity_at (distance s.waypoints s.trajectory_start_idx idx))

/-- `WaypointUpdater.distance_to_waypoint(wp)`: planar Euclidean distance from
the vehicle position to a waypoint. -/
noncomputable def distance_to_waypoint (px py : ℝ) (wp : Position) : ℝ :=
  Real.sqrt ((wp.x - px) ^ 2 + (wp.y - py) ^ 2)

/-- `WaypointUpdater.transform_to_local(wp)`: rotation of the offset vector by
`-yaw` into the vehicle frame (the bearing `atan2` output of the source is
unused by every modelled caller and is omitted). -/
noncomputable def transform_to_local (px py yaw : ℝ) (wp : Position) : ℝ × ℝ :=
  (Real.cos (-yaw) * (wp.x - px) - Real.sin (-yaw) * (wp.y - py),
   Real.sin (-yaw) * (wp.x - px) + Real.cos (-yaw) * (wp.y - py))

/-- `WaypointUpdater.is_waypoint_ahead(wp)`: the local x-coordinate is
strictly positive. -/
noncomputable def is_waypoint_ahead (px py yaw : ℝ) (wp : Position) : Prop :=
  (transform_to_local px py yaw wp).1 > 0

open Classical in
/-- The arg-min scan of `WaypointUpdater.find_closest_waypoint`: the loop over
`enumerate(self.waypoints)` tracking `(min_dist, min_idx)` from the initial
values `(1e9, None)`. -/
noncomputable def arg_min_scan (px py : ℝ) :
    List Position → ℕ → ℝ × Option ℕ → ℝ × Option ℕ
  | [], _, acc => acc
  | wp :: rest, idx, (min_dist, min_idx) =>
    let dist := distance_to_waypoint px py wp
    if dist < min_dist then arg_min_scan px py rest (idx + 1) (dist, some idx)
    else arg_min_scan px py rest (idx + 1) (min_dist, min_idx)

noncomputable def arg_min_waypoint (wps : List Position) (px py : ℝ) : ℝ × Option ℕ :=
  arg_min_scan px py wps 0 (1e9, none)

open Classical in
/-- `WaypointUpdater.find_closest_waypoint()`: the arg-min index, advanced by
one modulo the path length when its waypoint is not ahead of the vehicle.  A
`None` arg-min would raise at the subsequent indexing in Python and is
modelled as `none`. -/
noncomputable def find_closest_waypoint (wps : List Position) (px py yaw : ℝ) : Option ℕ :=
  match (arg_min_waypoint wps px py).2 with
  | none => none
  | some min_idx =>
    if is_waypoint_ahead px py yaw (wps.getD min_idx ⟨0, 0, 0⟩) then some min_idx
    else some ((min_idx + 1) % wps.length)

/-- The `YawController` construction parameters. -/
structure YawController where
  wheel_base : ℝ
  steer_ratio : ℝ
  min_speed : ℝ
  max_lat_accel : ℝ
  max_steer_angle : ℝ

/-- `YawController.clamp(value, max_abs_value)`. -/
noncomputable def clamp (value max_abs_value : ℝ) : ℝ :=
  max (-max_abs_value) (min max_abs_value value)

open Classical in
/-- Python float division, which raises `ZeroDivisionError` on a zero
divisor. -/
noncomputable def fdiv (a b : ℝ) : Option ℝ :=
  if b = 0 then none else some (a / b)

/-- `YawController.get_angle(radius)`:
`atan(wheel_base / radius) * steer_ratio` clamped to the maximum steering
angle. -/
noncomputable def get_angle (c : YawController) (radius : ℝ) : Option ℝ :=
  (fdiv c.wheel_base radius).map
    (fun q => clamp (Real.arctan q * c.steer_ratio) c.max_steer_angle)

open Classical in
/-- `YawController.get_steering(linear_velocity, angular_velocity,
current_velocity)`. -/
noncomputable def get_steering (c : YawController)
    (linear_velocity angular_velocity current_velocity : ℝ) : Option ℝ :=
  if |linear_velocity| > 0 then
    (fdiv (current_velocity * angular_velocity) linear_velocity).bind (fun av =>
      if |current_velocity| > 0.1 then
        (fdiv c.max_lat_accel current_velocity).bind (fun q =>
          let max_yaw_rate := |q|
          let av2 := clamp av max_yaw_rate
          if |av2| > 0 then
            (fdiv (max current_velocity c.min_speed) av2).bind (fun radius =>
              get_angle c radius)
          else some 0)
      else some 0)
  else some 0

/-! ## Helper lemmas and concrete states -/

lemma dl_self (a : Position) : dl a a = 0 := by
  simp [dl]

lemma distance_of_rev (wps : List Position) {i j : ℤ} (h : j < i) :
    distance wps i j = 0 := by
  have h1 : (j + 1 - i).toNat = 0 := by omega
  simp [distance, intRange, h1]

/-- A concrete updater state: braking toward a red light at index 1. -/
noncomputable def wState : UpdaterState where
  px := 0
  py := 0
  yaw := 0
  velocity := 0
  waypoints := []
  target_velocity := 0
  state := .stopAtTl
  red_tl_waypoint_idx := 1
  trajectory_start_idx := -1
  trajectory_start_velocity := 0
  trajectory := none
  current_velocity := 0
  breaking_trajectory_duration := 4

/-- A concrete two-waypoint path. -/
noncomputable def wPath : List Position := [⟨0, 0, 0⟩, ⟨3, 4, 0⟩]

lemma velocity_at_position_nonneg (t : BreakingTrajectory) (x : ℝ) :
    0 ≤ t.velocity_at_position x := by
  rw [BreakingTrajectory.velocity_at_position]
  split
  · exact le_refl 0
  · exact Real.sqrt_nonneg _

lemma velocity_at_position_anti (t : BreakingTrajectory)
    (ha : t.acceleration ≤ 0) {x1 x2 : ℝ} (h : x1 ≤ x2) :
    t.velocity_at_position x2 ≤ t.velocity_at_position x1 := by
  by_cases h2 : x2 ≥ t.distance_to_tl
  · calc t.velocity_at_position x2 = 0 := by
          rw [BreakingTrajectory.velocity_at_position, if_pos h2]
      _ ≤ t.velocity_at_position x1 := velocity_at_position_nonneg t x1
  · have h1 : ¬ x1 ≥ t.distance_to_tl := fun hh => h2 (le_trans hh h)
    simp only [BreakingTrajectory.velocity_at_position, if_neg h1, if_neg h2]
    apply Real.sqrt_le_sqrt
    apply max_le_max (le_refl 0)
    have := mul_le_mul_of_nonpos_right h ha
    linarith

lemma make_10_50 :
    BreakingTrajectory.make 10 50 1.25 = ⟨1.25, -1.25, 10, 50⟩ := by
  have hmax : max (0.1 : ℝ) 50 = 50 := max_eq_right (by norm_num)
  simp only [BreakingTrajectory.make, BreakingTrajectory.mk.injEq, hmax]
  norm_num

lemma make_acceleration_nonpos (v0 d alpha : ℝ) (halpha : 0 ≤ alpha) :
    (BreakingTrajectory.make v0 d alpha).acceleration ≤ 0 := by
  have hM : (0 : ℝ) < max 0.1 d := lt_of_lt_of_le (by norm_num) (le_max_left _ _)
  have hq : 0 ≤ v0 ^ 2 / max 0.1 d := div_nonneg (sq_nonneg v0) hM.le
  simp only [BreakingTrajectory.make]
  rw [show -0.5 * v0 ^ 2 / max 0.1 d * alpha
      = -(0.5 * alpha * (v0 ^ 2 / max 0.1 d)) by ring]
  nlinarith [hq, halpha]

/-! ## Claims -/

/-- C9: for every path and every valid index `i`, the arc-length accumulation
from `i` to `i` returns exactly `0` (the single loop step adds
`dl(waypoints[i], waypoints[i]) = 0`). -/
theorem arc_length_self_zero (wps : List Position) (i : ℤ)
    (h0 : 0 ≤ i) (hi : i < wps.length) : distance wps i i = 0 := by
  have h1 : (i + 1 - i).toNat = 1 := by omega
  have h2 : intRange i (i + 1) = [i] := by
    simp [intRange, h1, List.range_succ]
  simp [distance, h2, dl_self]

theorem arc_length_self_zero_witness :
    (0 : ℤ) ≤ 1 ∧ (1 : ℤ) < (wPath.length : ℤ) ∧ distance wPath 1 1 = 0 :=
  ⟨by norm_num, by norm_num [wPath],
    arc_length_self_zero wPath 1 (by norm_num) (by norm_num [wPath])⟩

/-- C10: for every path and valid indices with `i > j`, the arc-length
accumulation from `i` to `j` returns exactly `0`: the Python loop
`range(i, j+1)` is empty, and no wrap-around distance is summed. -/
theorem arc_length_reversed_zero (wps : List Position) (i j : ℤ)
    (hij : j < i) (h0 : 0 ≤ j) (hi : i < wps.length) :
    distance wps i j = 0 :=
  distance_of_rev wps hij

theorem arc_length_reversed_zero_witness :
    (0 : ℤ) < 1 ∧ (0 : ℤ) ≤ 0 ∧ (1 : ℤ) < (wPath.length : ℤ) ∧
      distance wPath 1 0 = 0 :=
  ⟨by norm_num, by norm_num, by norm_num [wPath],
    arc_length_reversed_zero wPath 1 0 (by norm_num) (by norm_num)
      (by norm_num [wPath])⟩

/-- C3: with a stop request present and the current index strictly past the
stop index, `is_red_traffic_light_near` holds iff the arc-length distance from
the current index to the stop index is below `2.0`. -/
theorem stop_near_past_stop_iff (s : UpdaterState) (current_idx : ℕ)
    (hreq : s.red_tl_waypoint_idx ≠ -1)
    (hpast : (current_idx : ℤ) > s.red_tl_waypoint_idx) :
    (is_red_traffic_light_near s current_idx ↔
      distance s.waypoints current_idx s.red_tl_waypoint_idx < 2) := by
  simp [is_red_traffic_light_near, hreq, hpast]

theorem stop_near_past_stop_iff_witness :
    wState.red_tl_waypoint_idx ≠ -1 ∧
      ((2 : ℕ) : ℤ) > wState.red_tl_waypoint_idx ∧
      (is_red_traffic_light_near wState 2 ↔
        distance wState.waypoints 2 wState.red_tl_waypoint_idx < 2) :=
  ⟨by norm_num [wState], by norm_num [wState],
    stop_near_past_stop_iff wState 2 (by norm_num [wState])
      (by norm_num [wState])⟩

/-- C6: while the planner state is `STOP_AT_TL`, the commanded speed for any
index at or beyond the stop index is exactly `some 0`, whatever the active
trajectory would output. -/
theorem stop_state_speed_clamped_zero (s : UpdaterState) (idx : ℕ)
    (hstate : s.state = .stopAtTl)
    (hidx : (idx : ℤ) ≥ s.red_tl_waypoint_idx) :
    calc_waypoint_velocity s idx = some 0 := by
  simp [calc_waypoint_velocity, hstate, hidx]

theorem stop_state_speed_clamped_zero_witness :
    wState.state = STATE.stopAtTl ∧
      ((2 : ℕ) : ℤ) ≥ wState.red_tl_waypoint_idx ∧
      calc_waypoint_velocity wState 2 = some 0 :=
  ⟨rfl, by norm_num [wState],
    stop_state_speed_clamped_zero wState 2 rfl (by norm_num [wState])⟩

/-- C8: for the braking profile with `v0 = 10`, `d = 50`, `α = 1.25`:
`velocity_at_position` is `10` at `0`, `0` at `50` and at `60`, and is
monotone non-increasing on `[0, 50]`; more generally, for any `v0 > 0` and
any `d` it is monotone non-increasing everywhere. -/
theorem braking_profile_shape :
    (BreakingTrajectory.make 10 50 1.25).velocity_at_position 0 = 10 ∧
    (BreakingTrajectory.make 10 50 1.25).velocity_at_position 50 = 0 ∧
    (BreakingTrajectory.make 10 50 1.25).velocity_at_position 60 = 0 ∧
    (∀ x1 x2 : ℝ, 0 ≤ x1 → x1 ≤ x2 → x2 ≤ 50 →
      (BreakingTrajectory.make 10 50 1.25).velocity_at_position x2 ≤
        (BreakingTrajectory.make 10 50 1.25).velocity_at_position x1) ∧
    (∀ v0 d x1 x2 : ℝ, 0 < v0 → x1 ≤ x2 →
      (BreakingTrajectory.make v0 d 1.25).velocity_at_position x2 ≤
        (BreakingTrajectory.make v0 d 1.25).velocity_at_position x1) := by
  refine ⟨?_, ?_, ?_, ?_, ?_⟩
  · rw [make_10_50, BreakingTrajectory.velocity_at_position,
      if_neg (by norm_num)]
    have h : max (0 : ℝ) (0 * (-1.25) + 10 ^ 2) = 10 ^ 2 := by norm_num
    rw [show (⟨1.25, -1.25, 10, 50⟩ : BreakingTrajectory).acceleration
        = (-1.25 : ℝ) from rfl,
      show (⟨1.25, -1.25, 10, 50⟩ : BreakingTrajectory).start_velocity
        = (10 : ℝ) from rfl, h, Real.sqrt_sq (by norm_num)]
  · rw [make_10_50, BreakingTrajectory.velocity_at_position,
      if_pos (by norm_num)]
  · rw [make_10_50, BreakingTrajectory.velocity_at_position,
      if_pos (by norm_num)]
  · intro x1 x2 _ h12 _
    exact velocity_at_position_anti _ (by rw [make_10_50]; norm_num) h12
  · intro v0 d x1 x2 _ h12
    exact velocity_at_position_anti _
      (make_acceleration_nonpos v0 d 1.25 (by norm_num)) h12

theorem braking_profile_shape_witness :
    ((0 : ℝ) ≤ 0 ∧ (0 : ℝ) ≤ 40 ∧ (40 : ℝ) ≤ 50 ∧
      (BreakingTrajectory.make 10 50 1.25).velocity_at_position 40 ≤
        (BreakingTrajectory.make 10 50 1.25).velocity_at_position 0) ∧
    ((0 : ℝ) < 3 ∧ (1 : ℝ) ≤ 2 ∧
      (BreakingTrajectory.make 3 7 1.25).velocity_at_position 2 ≤
        (BreakingTrajectory.make 3 7 1.25).velocity_at_position 1) :=
  ⟨⟨by norm_num, by norm_num, by norm_num,
      braking_profile_shape.2.2.2.1 0 40 (by norm_num) (by norm_num)
        (by norm_num)⟩,
    ⟨by norm_num, by norm_num,
      braking_profile_shape.2.2.2.2 3 7 1 2 (by norm_num) (by norm_num)⟩⟩

/-- C2, counterexample: for `v0 = 10`, `d = 50`, `α = 1.25`, at `x = 40`
(inside `[0, d)`) the claimed closed form
`sqrt(max 0 (v0² + 2·a·x))` with `a` the stored acceleration evaluates to `0`
while the code's `velocity_at_position` is strictly positive; moreover the
profile is still strictly positive at `x = 49` and drops to `0` at `x = 50`,
so zero speed is attained only through the `x ≥ d` branch, with a downward
jump at the stop distance. -/
theorem braking_closed_form_counterexample :
    (0 : ℝ) ≤ 40 ∧
    (40 : ℝ) < (BreakingTrajectory.make 10 50 1.25).distance_to_tl ∧
    Real.sqrt (max 0 ((BreakingTrajectory.make 10 50 1.25).start_velocity ^ 2 +
      2 * (BreakingTrajectory.make 10 50 1.25).acceleration * 40)) = 0 ∧
    0 < (BreakingTrajectory.make 10 50 1.25).velocity_at_position 40 ∧
    0 < (BreakingTrajectory.make 10 50 1.25).velocity_at_position 49 ∧
    (BreakingTrajectory.make 10 50 1.25).velocity_at_position 50 = 0 := by
  rw [make_10_50]
  refine ⟨by norm_num, by norm_num, ?_, ?_, ?_, ?_⟩
  · norm_num
  · rw [BreakingTrajectory.velocity_at_position, if_neg (by norm_num)]
    apply Real.sqrt_pos.mpr
    norm_num
  · rw [BreakingTrajectory.velocity_at_position, if_neg (by norm_num)]
    apply Real.sqrt_pos.mpr
    norm_num
  · rw [BreakingTrajectory.velocity_at_position, if_pos (by norm_num)]

/-- C2, amended: for `v0 > 0`, `d ≥ 0.1` and `0 ≤ x < d`,
`velocity_at_position x = sqrt(v0² + a·x)` with `a` the stored acceleration —
the constant-deceleration law `v² = v0² + 2·(a/2)·x`, i.e. an effective
deceleration of only half the stored value (effective margin `α/2 = 0.625`).
The square-root term stays strictly positive on all of `[0, d)`, so the
profile reaches zero only through the `x ≥ d` branch, with a downward jump at
`x = d`. -/
theorem braking_closed_form_amended (v0 d x : ℝ) (hv : 0 < v0)
    (hd : 0.1 ≤ d) (hx0 : 0 ≤ x) (hxd : x < d) :
    (BreakingTrajectory.make v0 d 1.25).velocity_at_position x =
      Real.sqrt (v0 ^ 2 + (BreakingTrajectory.make v0 d 1.25).acceleration * x) ∧
    0 < (BreakingTrajectory.make v0 d 1.25).velocity_at_position x ∧
    (BreakingTrajectory.make v0 d 1.25).velocity_at_position d = 0 := by
  have hdpos : (0 : ℝ) < d := lt_of_lt_of_le (by norm_num) hd
  have hmax : max (0.1 : ℝ) d = d := max_eq_right hd
  have ha : (BreakingTrajectory.make v0 d 1.25).acceleration
      = -0.5 * v0 ^ 2 / d * 1.25 := by
    simp [BreakingTrajectory.make, hmax]
  have hq1 : x / d < 1 := (div_lt_one hdpos).mpr hxd
  have hq0 : 0 ≤ x / d := div_nonneg hx0 hdpos.le
  have h3 : v0 ^ 2 * (x / d) < v0 ^ 2 * 1 :=
    mul_lt_mul_of_pos_left hq1 (pow_pos hv 2)
  have hinner : 0 < x * (-0.5 * v0 ^ 2 / d * 1.25) + v0 ^ 2 := by
    rw [show x * (-0.5 * v0 ^ 2 / d * 1.25)
        = -(0.625 * (v0 ^ 2 * (x / d))) by ring]
    nlinarith [h3, pow_pos hv 2, hq0]
  have hdtl : (BreakingTrajectory.make v0 d 1.25).distance_to_tl = d := rfl
  have hsv : (BreakingTrajectory.make v0 d 1.25).start_velocity = v0 := rfl
  refine ⟨?_, ?_, ?_⟩
  · rw [BreakingTrajectory.velocity_at_position, hdtl,
      if_neg (not_le.mpr hxd), hsv, ha, max_eq_right hinner.le]
    ring_nf
  · rw [BreakingTrajectory.velocity_at_position, hdtl,
      if_neg (not_le.mpr hxd), hsv, ha]
    apply Real.sqrt_pos.mpr
    rw [max_eq_right hinner.le]
    exact hinner
  · rw [BreakingTrajectory.velocity_at_position, hdtl, if_pos (le_refl d)]

lemma abs_clamp_le (v m : ℝ) (hm : 0 ≤ m) : |clamp v m| ≤ m := by
  rw [clamp, abs_le]
  refine ⟨le_max_left _ _, max_le (by linarith) (min_le_left _ _)⟩

/-- C7, counterexample: with `min_speed = 0`, a negative current velocity of
`-1` (well clear of the near-zero-speed guard `|cv| > 0.1`) and commanded
velocities `(1, 1)`, `get_steering` reaches
`radius = max(current_velocity, min_speed) / angular_velocity = 0` and the
turning-angle computation divides `wheel_base` by zero (a Python
`ZeroDivisionError`, modelled as `none`), although `max_steer_angle = 8 ≥ 0`. -/
theorem steering_divzero_counterexample :
    (0 : ℝ) ≤ (8 : ℝ) ∧
    get_steering ⟨2.8, 14.8, 0, 3, 8⟩ 1 1 (-1) = none := by
  refine ⟨by norm_num, ?_⟩
  simp only [get_steering, get_angle, fdiv, clamp]
  norm_num [min_def, max_def]

/-- C7, amended: whenever `max_steer_angle ≥ 0` and
`max(current_velocity, min_speed) ≠ 0` (e.g. a strictly positive `min_speed`),
`get_steering` evaluates without any division by zero and its result is
bounded by `max_steer_angle` in absolute value.  Without the second
hypothesis the turning-radius computation can divide by zero. -/
theorem steering_bounded (c : YawController) (lin ang cv : ℝ)
    (hmax : 0 ≤ c.max_steer_angle) (hms : max cv c.min_speed ≠ 0) :
    ∃ y, get_steering c lin ang cv = some y ∧ |y| ≤ c.max_steer_angle := by
  rw [get_steering]
  by_cases h1 : |lin| > 0
  case neg =>
    rw [if_neg h1]
    exact ⟨0, rfl, by simpa using hmax⟩
  rw [if_pos h1]
  have hlin : lin ≠ 0 := by
    intro h
    rw [h] at h1
    simp at h1
  rw [show fdiv (cv * ang) lin = some (cv * ang / lin) by
    rw [fdiv, if_neg hlin]]
  simp only [Option.some_bind]
  by_cases h2 : |cv| > 0.1
  case neg =>
    rw [if_neg h2]
    exact ⟨0, rfl, by simpa using hmax⟩
  rw [if_pos h2]
  have hcv : cv ≠ 0 := abs_pos.mp (lt_trans (by norm_num) h2)
  rw [show fdiv c.max_lat_accel cv = some (c.max_lat_accel / cv) by
    rw [fdiv, if_neg hcv]]
  simp only [Option.some_bind]
  by_cases h3 : abs (clamp (cv * ang / lin) (abs (c.max_lat_accel / cv))) > 0
  case neg =>
    rw [if_neg h3]
    exact ⟨0, rfl, by simpa using hmax⟩
  rw [if_pos h3]
  have hav : clamp (cv * ang / lin) (abs (c.max_lat_accel / cv)) ≠ 0 := abs_pos.mp h3
  rw [show fdiv (max cv c.min_speed)
      (clamp (cv * ang / lin) (abs (c.max_lat_accel / cv)))
      = some (max cv c.min_speed /
        clamp (cv * ang / lin) (abs (c.max_lat_accel / cv))) by
    rw [fdiv, if_neg hav]]
  simp only [Option.some_bind]
  have hrad : max cv c.min_speed /
      clamp (cv * ang / lin) (abs (c.max_lat_accel / cv)) ≠ 0 :=
    div_ne_zero hms hav
  rw [get_angle, fdiv, if_neg hrad]
  exact ⟨_, rfl, abs_clamp_le _ _ hmax⟩

theorem steering_bounded_witness :
    ∃ y, get_steering ⟨2.8, 14.8, 5, 3, 8⟩ 5 1 5 = some y ∧
      |y| ≤ (⟨2.8, 14.8, 5, 3, 8⟩ : YawController).max_steer_angle :=
  steering_bounded ⟨2.8, 14.8, 5, 3, 8⟩ 5 1 5 (by norm_num)
    (by norm_num [max_self])

/-- A concrete three-waypoint path. -/
noncomputable def cPath : List Position := [⟨0, 0, 0⟩, ⟨1, 0, 0⟩, ⟨2, 0, 0⟩]

/-- The updater state after start-up, a traffic callback announcing a red
light at waypoint 1, and a velocity callback delivering a speed of 10. -/
noncomputable def c1_state : UpdaterState :=
  velocity_cb (traffic_cb (initState cPath 40) 1) 10

noncomputable def c1_after : UpdaterState := update_state c1_state 2

/-- C1 (code bug): on the KEEP_VELOCITY → STOP_AT_TL transition the braking
profile is seeded from the field `current_velocity`, which `__init__` sets to
`0.0` and which no callback ever updates — `velocity_cb` writes the separate
field `velocity`.  Here the last delivered speed is `10`, yet the freshly
instantiated profile has start velocity `0`.  Distance-to-stop and origin
index are recorded as claimed. -/
theorem braking_seeded_with_stale_velocity :
    c1_state.velocity = 10 ∧
    c1_after.state = STATE.stopAtTl ∧
    c1_after.trajectory_start_idx = 2 ∧
    c1_after.trajectory = some (ActiveTrajectory.braking
      (BreakingTrajectory.make 0 (distance cPath 2 1) 1.25)) ∧
    (BreakingTrajectory.make 0 (distance cPath 2 1) 1.25).start_velocity
      ≠ c1_state.velocity := by
  have hkeep : c1_state.state = STATE.keepVelocity := rfl
  have hnear : is_red_traffic_light_near c1_state 2 := by
    have h0 : distance cPath 2 1 = 0 := distance_of_rev cPath (by norm_num)
    have hred : c1_state.red_tl_waypoint_idx = 1 := rfl
    have hwps : c1_state.waypoints = cPath := rfl
    rw [is_red_traffic_light_near, hred, if_neg (by norm_num), hwps]
    rw [if_pos (by norm_num)]
    rw [show ((2 : ℕ) : ℤ) = (2 : ℤ) from rfl, h0]
    norm_num
  have hupd : c1_after = { c1_state with
      state := .stopAtTl
      trajectory_start_idx := (2 : ℤ)
      trajectory := some (.braking (BreakingTrajectory.make
        c1_state.current_velocity
        (distance_to_next_traffic_light c1_state 2) 1.25)) } := by
    rw [c1_after, update_state, if_pos ⟨hkeep, hnear⟩]
    simp
  have hcv : c1_state.current_velocity = 0 := rfl
  have hdtl : distance_to_next_traffic_light c1_state 2
      = distance cPath 2 1 := rfl
  refine ⟨rfl, ?_, ?_, ?_, ?_⟩
  · rw [hupd]
  · rw [hupd]
  · rw [hupd]
    simp only [hcv, hdtl]
  · rw [show (BreakingTrajectory.make 0 (distance cPath 2 1) 1.25).start_velocity
      = (0 : ℝ) from rfl, show c1_state.velocity = (10 : ℝ) from rfl]
    norm_num

/-- A one-waypoint path with its waypoint ahead of the origin pose. -/
noncomputable def wpsAhead : List Position := [⟨1, 0, 0⟩]

/-- A two-waypoint path with both waypoints behind the origin pose. -/
noncomputable def wpsBehind : List Position := [⟨-1, 0, 0⟩, ⟨-2, 0, 0⟩]

lemma dtw_single : distance_to_waypoint 0 0 ⟨1, 0, 0⟩ = 1 := by
  rw [distance_to_waypoint]
  norm_num

lemma dtw_m1 : distance_to_waypoint 0 0 ⟨-1, 0, 0⟩ = 1 := by
  rw [distance_to_waypoint]
  norm_num

lemma dtw_m2 : distance_to_waypoint 0 0 ⟨-2, 0, 0⟩ = 2 := by
  rw [distance_to_waypoint]
  rw [show (((⟨-2, 0, 0⟩ : Position).x - 0) ^ 2
    + ((⟨-2, 0, 0⟩ : Position).y - 0) ^ 2) = 2 ^ 2 by norm_num]
  exact Real.sqrt_sq (by norm_num)

/-- C5, counterexample: on the path `[(-1,0), (-2,0)]` with the vehicle at the
origin heading along positive x, the arg-min waypoint (index 0) is behind, so
the localizer advances to index 1 — no seam wrap is involved — yet waypoint 1
is also behind the vehicle (local x-coordinate `-2 ≤ 0`). -/
theorem localizer_returns_behind_counterexample :
    (arg_min_waypoint wpsBehind 0 0).2 = some 0 ∧
    0 + 1 < wpsBehind.length ∧
    find_closest_waypoint wpsBehind 0 0 0 = some 1 ∧
    ¬ is_waypoint_ahead 0 0 0 (wpsBehind.getD 1 ⟨0, 0, 0⟩) := by
  have harg : arg_min_waypoint wpsBehind 0 0 = (1, some 0) := by
    rw [arg_min_waypoint, wpsBehind, arg_min_scan, dtw_m1,
      if_pos (by norm_num), arg_min_scan, dtw_m2, if_neg (by norm_num),
      arg_min_scan]
  have hbehind0 : ¬ is_waypoint_ahead 0 0 0 (wpsBehind.getD 0 ⟨0, 0, 0⟩) := by
    rw [is_waypoint_ahead, transform_to_local]
    simp [wpsBehind]
  have hbehind1 : ¬ is_waypoint_ahead 0 0 0 (wpsBehind.getD 1 ⟨0, 0, 0⟩) := by
    rw [is_waypoint_ahead, transform_to_local]
    simp [wpsBehind]
  refine ⟨by rw [harg], by simp [wpsBehind], ?_, hbehind1⟩
  rw [find_closest_waypoint, harg]
  simp only [if_neg hbehind0]
  simp [wpsBehind]

/-- C5, amended: the localizer returns the distance arg-min index when that
waypoint is strictly ahead in the vehicle frame, and otherwise its successor
modulo the path length; the returned waypoint is guaranteed strictly ahead
only under the extra assumption that the arg-min's successor waypoint is
itself strictly ahead — without it the returned waypoint can be behind the
vehicle. -/
theorem localizer_ahead_of_candidates (wps : List Position) (px py yaw : ℝ)
    (m : ℕ) (hm : (arg_min_waypoint wps px py).2 = some m)
    (hsucc : is_waypoint_ahead px py yaw
      (wps.getD ((m + 1) % wps.length) ⟨0, 0, 0⟩)) :
    ∃ k, find_closest_waypoint wps px py yaw = some k ∧
      is_waypoint_ahead px py yaw (wps.getD k ⟨0, 0, 0⟩) := by
  by_cases hA : is_waypoint_ahead px py yaw (wps.getD m ⟨0, 0, 0⟩)
  · refine ⟨m, ?_, hA⟩
    unfold find_closest_waypoint
    rw [hm]
    simp only [if_pos hA]
  · refine ⟨(m + 1) % wps.length, ?_, hsucc⟩
    unfold find_closest_waypoint
    rw [hm]
    simp only [if_neg hA]

theorem localizer_ahead_of_candidates_witness :
    (arg_min_waypoint wpsAhead 0 0).2 = some 0 ∧
    is_waypoint_ahead 0 0 0 (wpsAhead.getD ((0 + 1) % wpsAhead.length) ⟨0, 0, 0⟩) ∧
    ∃ k, find_closest_waypoint wpsAhead 0 0 0 = some k ∧
      is_waypoint_ahead 0 0 0 (wpsAhead.getD k ⟨0, 0, 0⟩) := by
  have harg : arg_min_waypoint wpsAhead 0 0 = (1, some 0) := by
    rw [arg_min_waypoint, wpsAhead, arg_min_scan, dtw_single,
      if_pos (by norm_num), arg_min_scan]
  have hsucc : is_waypoint_ahead 0 0 0
      (wpsAhead.getD ((0 + 1) % wpsAhead.length) ⟨0, 0, 0⟩) := by
    rw [is_waypoint_ahead, transform_to_local]
    simp [wpsAhead]
  exact ⟨by rw [harg], hsucc,
    localizer_ahead_of_candidates wpsAhead 0 0 0 0 (by rw [harg]) hsucc⟩

/-- A concrete state braking for a light whose stop request has cleared. -/
noncomputable def c4_state : UpdaterState :=
  { wState with
    trajectory := some (.braking (BreakingTrajectory.make 10 30 1.25))
    red_tl_waypoint_idx := -1 }

/-- C4, counterexample: on a STOP_AT_TL → KEEP_VELOCITY transition the state
machine sets the active trajectory to `none`; no cruise profile is
instantiated (the source's `switch_to_velocity_keeping` is never called from
`update_state`). -/
theorem cruise_profile_not_instantiated :
    c4_state.state = STATE.stopAtTl ∧
    ¬ is_red_traffic_light_near c4_state 0 ∧
    (update_state c4_state 0).state = STATE.keepVelocity ∧
    (update_state c4_state 0).trajectory = none := by
  have hnot : ¬ is_red_traffic_light_near c4_state 0 := by
    have hred : c4_state.red_tl_waypoint_idx = -1 := rfl
    rw [is_red_traffic_light_near, hred, if_pos rfl]
    exact not_false
  have h1 : ¬ (c4_state.state = STATE.keepVelocity ∧
      is_red_traffic_light_near c4_state 0) := by
    rintro ⟨h, -⟩
    exact STATE.noConfusion h
  have hupd : update_state c4_state 0
      = { c4_state with state := .keepVelocity, trajectory := none } := by
    rw [update_state, if_neg h1, if_pos ⟨rfl, hnot⟩]
  exact ⟨rfl, hnot, by rw [hupd], by rw [hupd]⟩

/-- C4, amended: when `stopNear` is false while the planner is in STOP_AT_TL,
the machine returns to KEEP_VELOCITY and discards the braking profile by
setting the active trajectory to `none`; no cruise profile replaces it. -/
theorem stop_to_keep_discards_profile (s : UpdaterState) (idx : ℕ)
    (hs : s.state = STATE.stopAtTl)
    (hnear : ¬ is_red_traffic_light_near s idx) :
    (update_state s idx).state = STATE.keepVelocity ∧
    (update_state s idx).trajectory = none := by
  have h1 : ¬ (s.state = STATE.keepVelocity ∧
      is_red_traffic_light_near s idx) := by
    rintro ⟨h, -⟩
    rw [hs] at h
    exact STATE.noConfusion h
  rw [update_state, if_neg h1, if_pos ⟨hs, hnear⟩]
  exact ⟨rfl, rfl⟩

theorem stop_to_keep_discards_profile_witness :
    (update_state c4_state 0).state = STATE.keepVelocity ∧
    (update_state c4_state 0).trajectory = none :=
  stop_to_keep_discards_profile c4_state 0 rfl (by
    have hred : c4_state.red_tl_waypoint_idx = -1 := rfl
    rw [is_red_traffic_light_near, hred, if_pos rfl]
    exact not_false)

theorem braking_closed_form_amended_witness :
    (BreakingTrajectory.make 10 50 1.25).velocity_at_position 40 =
      Real.sqrt (10 ^ 2 +
        (BreakingTrajectory.make 10 50 1.25).acceleration * 40) ∧
    0 < (BreakingTrajectory.make 10 50 1.25).velocity_at_position 40 ∧
    (BreakingTrajectory.make 10 50 1.25).velocity_at_position 50 = 0 :=
  braking_closed_form_amended 10 50 40 (by norm_num) (by norm_num)
    (by norm_num) (by norm_num)
